import Mathlib

/-!
Shallow embedding of `apps/desktop/src-tauri/icons/generate_icons.py`.

The script draws a lock/shield icon with the PIL `ImageDraw` primitives and
saves it at several resolutions.  We embed the drawing layer as a list of
drawing commands (one per `draw.*` call, in program order) together with a
rasterizer that assigns each pixel the fill colour of the last command
covering it — PIL's `ImageDraw` on an RGBA image writes the ink (including
its alpha) directly into the pixel, with no blending.

Conventions of the embedding:
* Python integers are `Int`; all the `//` divisions in the script are applied
  to non-negative operands, where Python floor division agrees with `Nat`
  division, so the scalar geometry parameters are kept in `Nat` exactly as
  the source computes them and cast to `Int` where they are used as
  coordinates.  The one subtraction that is not obviously non-negative
  (`shackle_y = padding - box_size // 10`) is performed in `Int`.
* `stem_height = keyhole_radius * 1.5` is an exact binary float in Python and
  PIL truncates coordinates with `int(...)`; since the value is non-negative
  this equals `(3 * keyhole_radius) / 2` in `Nat` arithmetic.
* Shape membership is the mathematical rasterization of each PIL primitive:
  a rectangle fills its bounding box inclusive of both corner points, an
  ellipse fills the points of the inscribed disk of its bounding box, a
  rounded rectangle is the box minus the four corner squares outside the
  corner disks, and an `arc` of angular span 0..180 with a stroke width is
  the part of the elliptical ring between the outer ellipse and the ellipse
  shrunk by the width that lies in the lower half plane (PIL measures angles
  clockwise from 3 o'clock with the y axis pointing down, so 0..180 sweeps
  through the bottom of the ellipse).  The script only ever draws arcs with
  `start=0, end=180`, and no claim depends on sub-pixel boundary behaviour.
-/

/-- An RGBA colour, one byte per channel, as in PIL mode `'RGBA'`. -/
structure RGBA where
  r : Nat
  g : Nat
  b : Nat
  a : Nat
deriving DecidableEq, Repr

/-- The fully transparent colour `(0, 0, 0, 0)` the canvas is initialized with. -/
def transparent : RGBA := ⟨0, 0, 0, 0⟩

/-- `white = (255, 255, 255)`; a 3-tuple ink on an RGBA image gets alpha 255. -/
def white : RGBA := ⟨255, 255, 255, 255⟩

/-- `bg_color = (52, 115, 201)` — primary blue, opaque. -/
def bg_color : RGBA := ⟨52, 115, 201, 255⟩

/-- `dark_color = (35, 77, 137)` — declared in the script but never drawn with. -/
def dark_color : RGBA := ⟨35, 77, 137, 255⟩

/-- `light_color = (100, 160, 230)` — declared in the script but never drawn with. -/
def light_color : RGBA := ⟨100, 160, 230, 255⟩

/-- The semi-transparent shadow fill `(30, 65, 120, 100)`. -/
def shadow_color : RGBA := ⟨30, 65, 120, 100⟩

/-- One PIL drawing primitive, with its bounding-box coordinates. -/
inductive Shape where
  | roundedRect (x0 y0 x1 y1 radius : Int)
  | rect (x0 y0 x1 y1 : Int)
  | ellipse (x0 y0 x1 y1 : Int)
  | arc (x0 y0 x1 y1 : Int) (start stop : Nat) (width : Nat)
deriving DecidableEq, Repr

/-- One `draw.*` call: a shape filled (or stroked) with a colour. -/
structure DrawCmd where
  shape : Shape
  fill : RGBA
deriving DecidableEq, Repr

/-- Scaled point-in-ellipse test for the ellipse inscribed in the box
`[x0, y0, x1, y1]` (centre `((x0+x1)/2, (y0+y1)/2)`, working with doubled
coordinates to stay in integers). -/
def inEllipse (x0 y0 x1 y1 x y : Int) : Prop :=
  (2 * x - (x0 + x1)) ^ 2 * (y1 - y0) ^ 2 + (2 * y - (y0 + y1)) ^ 2 * (x1 - x0) ^ 2
    ≤ (x1 - x0) ^ 2 * (y1 - y0) ^ 2

instance (x0 y0 x1 y1 x y : Int) : Decidable (inEllipse x0 y0 x1 y1 x y) :=
  inferInstanceAs (Decidable (_ ≤ _))

/-- Which pixels a shape paints.  The first conjunct of every case is
membership in the shape's bounding box. -/
def covers : Shape → Int → Int → Bool
  | .rect x0 y0 x1 y1, x, y =>
      decide (x0 ≤ x ∧ x ≤ x1 ∧ y0 ≤ y ∧ y ≤ y1)
  | .roundedRect x0 y0 x1 y1 r, x, y =>
      decide (x0 ≤ x ∧ x ≤ x1 ∧ y0 ≤ y ∧ y ≤ y1 ∧
        (x0 + r ≤ x ∨ y0 + r ≤ y ∨ (x - (x0 + r)) ^ 2 + (y - (y0 + r)) ^ 2 ≤ r ^ 2) ∧
        (x ≤ x1 - r ∨ y0 + r ≤ y ∨ (x - (x1 - r)) ^ 2 + (y - (y0 + r)) ^ 2 ≤ r ^ 2) ∧
        (x0 + r ≤ x ∨ y ≤ y1 - r ∨ (x - (x0 + r)) ^ 2 + (y - (y1 - r)) ^ 2 ≤ r ^ 2) ∧
        (x ≤ x1 - r ∨ y ≤ y1 - r ∨ (x - (x1 - r)) ^ 2 + (y - (y1 - r)) ^ 2 ≤ r ^ 2))
  | .ellipse x0 y0 x1 y1, x, y =>
      decide (x0 ≤ x ∧ x ≤ x1 ∧ y0 ≤ y ∧ y ≤ y1 ∧ inEllipse x0 y0 x1 y1 x y)
  | .arc x0 y0 x1 y1 _start _stop w, x, y =>
      -- The script only draws arcs spanning 0..180 degrees: the lower
      -- half of the elliptical ring of the given stroke width.
      decide (x0 ≤ x ∧ x ≤ x1 ∧ y0 ≤ y ∧ y ≤ y1 ∧ y0 + y1 ≤ 2 * y ∧
        inEllipse x0 y0 x1 y1 x y ∧
        max ((x1 - x0) - 2 * w) 0 ^ 2 * max ((y1 - y0) - 2 * w) 0 ^ 2
          ≤ (2 * x - (x0 + x1)) ^ 2 * max ((y1 - y0) - 2 * w) 0 ^ 2
            + (2 * y - (y0 + y1)) ^ 2 * max ((x1 - x0) - 2 * w) 0 ^ 2)

/-- Colour of pixel `(x, y)` after executing the drawing commands in order on
a canvas initialized fully transparent: the last covering command wins. -/
def paintPixel (cmds : List DrawCmd) (x y : Int) : RGBA :=
  cmds.foldl (fun c cmd => if covers cmd.shape x y then cmd.fill else c) transparent

/-- A square RGBA raster: the side lengths and the pixel contents. -/
structure Image where
  width : Nat
  height : Nat
  pixel : Int → Int → RGBA

/-- `padding = size // 10` -/
def padding (size : Nat) : Nat := size / 10

/-- `box_size = size - 2 * padding` (non-negative, so `Nat` subtraction is exact). -/
def box_size (size : Nat) : Nat := size - 2 * padding size

/-- `corner_radius = box_size // 5` -/
def corner_radius (size : Nat) : Nat := box_size size / 5

/-- `shadow_padding = padding + size // 40` -/
def shadow_padding (size : Nat) : Nat := padding size + size / 40

/-- `shackle_width = box_size // 2` -/
def shackle_width (size : Nat) : Nat := box_size size / 2

/-- `shackle_height = box_size // 2` -/
def shackle_height (size : Nat) : Nat := box_size size / 2

/-- `shackle_x = padding + box_size // 2 - shackle_width // 2` (non-negative). -/
def shackle_x (size : Nat) : Nat :=
  padding size + box_size size / 2 - shackle_width size / 2

/-- `shackle_y = padding - box_size // 10`, computed in `Int` as in Python. -/
def shackle_y (size : Nat) : Int :=
  (padding size : Int) - (box_size size / 10 : Nat)

/-- `shackle_thickness = max(2, size // 25)` -/
def shackle_thickness (size : Nat) : Nat := max 2 (size / 25)

/-- `center_x = size // 2` -/
def center_x (size : Nat) : Nat := size / 2

/-- `center_y = size // 2 + size // 20` -/
def center_y (size : Nat) : Nat := size / 2 + size / 20

/-- `keyhole_radius = size // 12` -/
def keyhole_radius (size : Nat) : Nat := size / 12

/-- The shadow `draw.rounded_rectangle(...)` call of `create_icon`. -/
def shadowCmd (size : Nat) : DrawCmd :=
  { shape := .roundedRect (shadow_padding size) (shadow_padding size)
      (shadow_padding size + box_size size) (shadow_padding size + box_size size)
      (corner_radius size)
    fill := shadow_color }

/-- The main-body `draw.rounded_rectangle(...)` call of `create_icon`. -/
def bodyCmd (size : Nat) : DrawCmd :=
  { shape := .roundedRect (padding size) (padding size)
      (padding size + box_size size) (padding size + box_size size)
      (corner_radius size)
    fill := bg_color }

/-- `shackle_height // 2`, the half-height used in `arc_bbox`. -/
def arc_half (size : Nat) : Nat := shackle_height size / 2

/-- `stem_width = keyhole_radius` -/
def stem_width (size : Nat) : Nat := keyhole_radius size

/-- `center_y + stem_height` where `stem_height = keyhole_radius * 1.5`; the
value is an exact binary float and PIL truncates it, giving
`center_y + (3 * keyhole_radius) / 2` in `Nat` arithmetic. -/
def stem_y1 (size : Nat) : Nat := center_y size + 3 * keyhole_radius size / 2

/-- The shackle `draw.arc(arc_bbox, start=0, end=180, fill=white, width=shackle_thickness)`
call of `create_icon`. -/
def shackleCmd (size : Nat) : DrawCmd :=
  { shape := .arc (shackle_x size) (shackle_y size - arc_half size)
      (shackle_x size + shackle_width size) (shackle_y size + arc_half size)
      0 180 (shackle_thickness size)
    fill := white }

/-- The keyhole-circle `draw.ellipse(...)` call of `create_icon`. -/
def keyholeCmd (size : Nat) : DrawCmd :=
  { shape := .ellipse ((center_x size : Int) - keyhole_radius size)
      ((center_y size : Int) - keyhole_radius size)
      ((center_x size : Int) + keyhole_radius size)
      ((center_y size : Int) + keyhole_radius size)
    fill := white }

/-- The keyhole-stem `draw.rectangle(...)` call of `create_icon`. -/
def stemCmd (size : Nat) : DrawCmd :=
  { shape := .rect ((center_x size : Int) - (stem_width size / 2 : Nat))
      (center_y size)
      ((center_x size : Int) + (stem_width size / 2 : Nat))
      (stem_y1 size)
    fill := white }

/-- The five drawing calls of `create_icon`, in program order. -/
def create_icon_cmds (size : Nat) : List DrawCmd :=
  [shadowCmd size, bodyCmd size, shackleCmd size, keyholeCmd size, stemCmd size]

/-- `create_icon(size, output_path)` minus the final `img.save`: the fully
composited RGBA canvas (the path at which the driver saves it is recorded
separately in `runDriver`). -/
def create_icon (size : Nat) : Image :=
  { width := size
    height := size
    pixel := fun x y => paintPixel (create_icon_cmds size) x y }

/-- The drawing calls of the per-size loop body inside `create_ico_file`,
transcribed independently from its own source lines (the script duplicates
the whole of `create_icon`'s drawing code inline rather than calling it). -/
def ico_frame_cmds (size : Nat) : List DrawCmd :=
  let padding : Nat := size / 10
  let box_size : Nat := size - 2 * padding
  let corner_radius : Nat := box_size / 5
  let shadow_padding : Nat := padding + size / 40
  let shackle_width : Nat := box_size / 2
  let shackle_height : Nat := box_size / 2
  let shackle_x : Nat := padding + box_size / 2 - shackle_width / 2
  let shackle_y : Int := (padding : Int) - (box_size / 10 : Nat)
  let shackle_thickness : Nat := max 2 (size / 25)
  let center_x : Nat := size / 2
  let center_y : Nat := size / 2 + size / 20
  let keyhole_radius : Nat := size / 12
  let stem_width : Nat := keyhole_radius
  [ { shape := .roundedRect shadow_padding shadow_padding
        (shadow_padding + box_size) (shadow_padding + box_size) corner_radius
      fill := shadow_color },
    { shape := .roundedRect padding padding
        (padding + box_size) (padding + box_size) corner_radius
      fill := bg_color },
    { shape := .arc shackle_x (shackle_y - (shackle_height / 2 : Nat))
        (shackle_x + shackle_width) (shackle_y + (shackle_height / 2 : Nat))
        0 180 shackle_thickness
      fill := white },
    { shape := .ellipse ((center_x : Int) - keyhole_radius)
        ((center_y : Int) - keyhole_radius)
        ((center_x : Int) + keyhole_radius)
        ((center_y : Int) + keyhole_radius)
      fill := white },
    { shape := .rect ((center_x : Int) - (stem_width / 2 : Nat))
        center_y
        ((center_x : Int) + (stem_width / 2 : Nat))
        (center_y + 3 * keyhole_radius / 2)
      fill := white } ]

/-- One raster frame built inside `create_ico_file`'s loop. -/
def ico_frame (size : Nat) : Image :=
  { width := size
    height := size
    pixel := fun x y => paintPixel (ico_frame_cmds size) x y }

/-- Insertion of a `(width, height)` pair into a lexicographically ordered
list; used to model Python's `sorted` on 2-tuples. -/
def insortPair (p : Nat × Nat) : List (Nat × Nat) → List (Nat × Nat)
  | [] => [p]
  | q :: l =>
      if p.1 < q.1 ∨ (p.1 = q.1 ∧ p.2 ≤ q.2) then p :: q :: l
      else q :: insortPair p l

/-- Python's `sorted` on a list of `(width, height)` pairs
(lexicographic order). -/
def sortPairs (l : List (Nat × Nat)) : List (Nat × Nat) := l.foldr insortPair []

/-- The frame dimensions a Pillow ICO save actually records, modelled from
the library's documented behaviour (`IcoImagePlugin._save`, and the `sizes`
parameter documentation: "Any sizes bigger than the original size or 256
will be ignored"): the requested sizes are deduplicated and sorted
(`sorted(set(sizes))`), and every size larger than the image being saved or
larger than 256 in either dimension is dropped.  Frames for the surviving
sizes are produced by resizing the saved image itself; with no
`append_images` argument — and `create_ico_file` passes none — the other
rendered frames never reach the file. -/
def ico_saved_sizes (width height : Nat) (req : List (Nat × Nat)) : List (Nat × Nat) :=
  (sortPairs req.dedup).filter fun s =>
    decide (s.1 ≤ width ∧ s.2 ≤ height ∧ s.1 ≤ 256 ∧ s.2 ≤ 256)

/-- The result of `icons[0].save(output_path, format='ICO', sizes=[(i.width,
i.height) for i in icons])`: the raster handed to the encoder (`icons[0]`)
plus the frame dimensions the encoder actually records after its documented
filtering of the requested `sizes` list. -/
structure IcoFile where
  primary : Image
  sizes : List (Nat × Nat)

/-- `create_ico_file(sizes, output_path)` minus the actual file write.  The
subscript `icons[0]` raises `IndexError` when `sizes` is empty, before any
output is produced; this is modelled by returning `none`.  Otherwise the
16×16-or-whatever first frame is saved with the requested size list
`[(i.width, i.height) for i in icons]`, which the encoder filters against
the saved image's own dimensions (`ico_saved_sizes`). -/
def create_ico_file (sizes : List Nat) : Option IcoFile :=
  let icons := sizes.map ico_frame
  match icons with
  | [] => none
  | primary :: _ =>
      some { primary := primary
             sizes := ico_saved_sizes primary.width primary.height
               (icons.map fun i => (i.width, i.height)) }

/-- The fixed output directory hard-coded in `main`. -/
def output_dir : String := "/home/eric/coding/gmanager-glm/apps/desktop/src-tauri/icons"

/-- What the driver writes into one file: a PNG-encoded raster, or the ICO
container (carried as `Option` because `create_ico_file` can fail). -/
inductive FileContent where
  | png (img : Image)
  | ico (f : Option IcoFile)

/-- One run of `main()` (minus the actual filesystem writes and the
`os.makedirs(output_dir, exist_ok=True)` side effect): the ordered list of
file paths written and their contents.  The `run` argument models the
ambient state of a particular invocation — the script reads no clock, no
randomness and no environment, so the body does not depend on it. -/
def runDriver (_run : Nat) : List (String × FileContent) :=
  [ (output_dir ++ "/32x32.png", .png (create_icon 32)),
    (output_dir ++ "/128x128.png", .png (create_icon 128)),
    (output_dir ++ "/128x128@2x.png", .png (create_icon 256)),
    (output_dir ++ "/icon.ico", .ico (create_ico_file [16, 32, 48, 256])),
    (output_dir ++ "/icon.icns.png", .png (create_icon 512)) ]

/-! ## Helper lemmas

The four corner pixels of the canvas have `x = 0` or `x = size - 1`; each of
the five drawing shapes keeps its bounding box strictly inside the vertical
strips `x < 2` and `x > size - 2` once `size ≥ 20`, so a corner pixel is
covered by no shape at all. -/

theorem covers_shadow_corner (s : Nat) (hs : 20 ≤ s) (x y : Int)
    (hx : x = 0 ∨ x = (s : Int) - 1) : covers (shadowCmd s).shape x y = false := by
  simp only [shadowCmd, covers, decide_eq_false_iff_not]
  rintro ⟨h1, h2, -⟩
  simp only [shadow_padding, padding, box_size] at h1 h2
  rcases hx with rfl | rfl <;> omega

theorem covers_body_corner (s : Nat) (hs : 20 ≤ s) (x y : Int)
    (hx : x = 0 ∨ x = (s : Int) - 1) : covers (bodyCmd s).shape x y = false := by
  simp only [bodyCmd, covers, decide_eq_false_iff_not]
  rintro ⟨h1, h2, -⟩
  simp only [padding, box_size] at h1 h2
  rcases hx with rfl | rfl <;> omega

theorem covers_shackle_corner (s : Nat) (hs : 20 ≤ s) (x y : Int)
    (hx : x = 0 ∨ x = (s : Int) - 1) : covers (shackleCmd s).shape x y = false := by
  simp only [shackleCmd, covers, decide_eq_false_iff_not]
  rintro ⟨h1, h2, -⟩
  simp only [shackle_x, shackle_width, padding, box_size] at h1 h2
  rcases hx with rfl | rfl <;> omega

theorem covers_keyhole_corner (s : Nat) (hs : 20 ≤ s) (x y : Int)
    (hx : x = 0 ∨ x = (s : Int) - 1) : covers (keyholeCmd s).shape x y = false := by
  simp only [keyholeCmd, covers, decide_eq_false_iff_not]
  rintro ⟨h1, h2, -⟩
  simp only [center_x, keyhole_radius] at h1 h2
  rcases hx with rfl | rfl <;> omega

theorem covers_stem_corner (s : Nat) (hs : 20 ≤ s) (x y : Int)
    (hx : x = 0 ∨ x = (s : Int) - 1) : covers (stemCmd s).shape x y = false := by
  simp only [stemCmd, covers, decide_eq_false_iff_not]
  rintro ⟨h1, h2, -⟩
  simp only [center_x, stem_width, keyhole_radius] at h1 h2
  rcases hx with rfl | rfl <;> omega

/-- A pixel in the column `x = 0` or `x = size - 1` is painted by none of the
five drawing commands, hence stays at the transparent initial colour. -/
theorem corner_pixel_transparent (s : Nat) (hs : 20 ≤ s) (x y : Int)
    (hx : x = 0 ∨ x = (s : Int) - 1) :
    (create_icon s).pixel x y = transparent := by
  simp only [create_icon, paintPixel, create_icon_cmds, List.foldl,
    covers_shadow_corner s hs x y hx, covers_body_corner s hs x y hx,
    covers_shackle_corner s hs x y hx, covers_keyhole_corner s hs x y hx,
    covers_stem_corner s hs x y hx, Bool.false_eq_true, if_false]

/-! ## Claim theorems -/

/-- C1, counterexample: at the rendered size 32 the claim "the pixel at the
canvas center has alpha 255 and is not white" is false — the center pixel
`(16, 16)` of `create_icon 32` is exactly white, because the keyhole circle
(radius `32 // 12 = 2`, centred `32 // 20 = 1` pixel below the canvas
center) covers the canvas center. -/
theorem center_pixel_claim_false_at_32 :
    ¬ (((create_icon 32).pixel 16 16).a = 255 ∧ (create_icon 32).pixel 16 16 ≠ white) :=
  fun h => h.2 (by decide)

/-- C1, amended: for every rendered size, the pixel at the canvas center
`(size / 2, size / 2)` of `create_icon size` is fully opaque (alpha 255) and
is white — it lies inside the keyhole circle, whose centre is only
`size // 20` pixels below the canvas center while its radius is
`size // 12`. -/
theorem center_pixel_opaque_white :
    ∀ s ∈ [16, 32, 48, 128, 256, 512],
      (create_icon s).pixel (s / 2 : Nat) (s / 2 : Nat) = white ∧ white.a = 255 := by
  intro s hs
  fin_cases hs <;> exact ⟨by decide, rfl⟩

/-- C1, witness for the amended theorem at size 32. -/
theorem center_pixel_opaque_white_witness :
    (32 ∈ [16, 32, 48, 128, 256, 512]) ∧
      ((create_icon 32).pixel 16 16 = white ∧ white.a = 255) :=
  ⟨by decide, center_pixel_opaque_white 32 (by decide)⟩

/-- C2: for every size in {16, 32, 48, 128, 256, 512}, `create_icon` produces
a raster of exactly `size × size` pixels (its pixels are `RGBA` values by
the type of `Image.pixel`). -/
theorem create_icon_dimensions :
    ∀ s ∈ [16, 32, 48, 128, 256, 512],
      (create_icon s).width = s ∧ (create_icon s).height = s := by
  intro s _
  exact ⟨rfl, rfl⟩

/-- C2, witness at size 16. -/
theorem create_icon_dimensions_witness :
    (16 ∈ [16, 32, 48, 128, 256, 512]) ∧
      ((create_icon 16).width = 16 ∧ (create_icon 16).height = 16) :=
  ⟨by decide, create_icon_dimensions 16 (by decide)⟩

/-- C3: for every size ≥ 20, the four corner pixels of the canvas produced by
`create_icon` are fully transparent (alpha = 0). -/
theorem corners_transparent (s : Nat) (hs : 20 ≤ s) :
    ((create_icon s).pixel 0 0).a = 0 ∧
    ((create_icon s).pixel ((s : Int) - 1) 0).a = 0 ∧
    ((create_icon s).pixel 0 ((s : Int) - 1)).a = 0 ∧
    ((create_icon s).pixel ((s : Int) - 1) ((s : Int) - 1)).a = 0 := by
  rw [corner_pixel_transparent s hs 0 0 (Or.inl rfl),
    corner_pixel_transparent s hs _ 0 (Or.inr rfl),
    corner_pixel_transparent s hs 0 _ (Or.inl rfl),
    corner_pixel_transparent s hs _ _ (Or.inr rfl)]
  exact ⟨rfl, rfl, rfl, rfl⟩

/-- C3, witness at size 32. -/
theorem corners_transparent_witness :
    20 ≤ 32 ∧
      (((create_icon 32).pixel 0 0).a = 0 ∧
       ((create_icon 32).pixel 31 0).a = 0 ∧
       ((create_icon 32).pixel 0 31).a = 0 ∧
       ((create_icon 32).pixel 31 31).a = 0) :=
  ⟨by decide, corners_transparent 32 (by decide)⟩

/-- C4, code bug: given the sizes [16, 32, 48, 256], the script saves the
16×16 frame `icons[0]` as the image of the ICO file with no `append_images`;
the encoder ignores every requested size larger than that image, so the
produced container records only [(16, 16)] — not the four dimensions the
claim (and the script's own docstring and `print` output, which announce an
ICO "with multiple sizes" 16/32/48/256) state. -/
theorem ico_recorded_sizes_degenerate :
    (create_ico_file [16, 32, 48, 256]).map IcoFile.sizes = some [(16, 16)] := by
  decide

/-- C5: the driver is a pure function of fixed constants — two runs (modelled
by the ambient-state argument of `runDriver`, which the script never reads:
no randomness, no timestamps) produce identical output lists, in particular
pixel-identical PNG contents. -/
theorem driver_deterministic (r₁ r₂ : Nat) : runDriver r₁ = runDriver r₂ := rfl

/-- C6: the driver writes exactly the five files `32x32.png`, `128x128.png`,
`128x128@2x.png`, `icon.ico`, `icon.icns.png` into the one fixed output
directory, rendering PNGs at sizes 32, 128 and 256 (the 256 render saved as
the `@2x` variant), building the ICO from [16, 32, 48, 256], and rendering
the icns placeholder PNG at 512 pixels. -/
theorem driver_outputs (r : Nat) :
    (runDriver r).map Prod.fst =
      [output_dir ++ "/32x32.png", output_dir ++ "/128x128.png",
       output_dir ++ "/128x128@2x.png", output_dir ++ "/icon.ico",
       output_dir ++ "/icon.icns.png"] ∧
    (runDriver r).map Prod.snd =
      [.png (create_icon 32), .png (create_icon 128), .png (create_icon 256),
       .ico (create_ico_file [16, 32, 48, 256]), .png (create_icon 512)] :=
  ⟨rfl, rfl⟩

/-- C7: for every size, the third drawing command of `create_icon` is an arc
filled white, spanning 0 to 180 degrees, with stroke width
`max 2 (size / 25)` — proportional to the size with a minimum of 2 pixels. -/
theorem shackle_arc_params (s : Nat) :
    ∃ x0 y0 x1 y1,
      (create_icon_cmds s)[2]? =
        some ⟨Shape.arc x0 y0 x1 y1 0 180 (max 2 (s / 25)), white⟩ :=
  ⟨_, _, _, _, rfl⟩

/-- C8: for every positive size, the geometry parameters of `create_icon`
satisfy, in exact floor-division integer arithmetic: `padding = size / 10`,
`box_size = size - 2 * padding`, `corner_radius = box_size / 5`,
`shackle_width = shackle_height = box_size / 2`,
`keyhole_radius = size / 12`, and the shadow rectangle is offset from the
main badge by `size / 40` pixels. -/
theorem geometry_params (s : Nat) (_h : 0 < s) :
    padding s = s / 10 ∧
    box_size s = s - 2 * padding s ∧
    corner_radius s = box_size s / 5 ∧
    shackle_width s = box_size s / 2 ∧
    shackle_height s = box_size s / 2 ∧
    keyhole_radius s = s / 12 ∧
    shadow_padding s - padding s = s / 40 := by
  refine ⟨rfl, rfl, rfl, rfl, rfl, rfl, ?_⟩
  simp only [shadow_padding]
  omega

/-- C8, witness at size 32. -/
theorem geometry_params_witness :
    0 < 32 ∧
      (padding 32 = 32 / 10 ∧
       box_size 32 = 32 - 2 * padding 32 ∧
       corner_radius 32 = box_size 32 / 5 ∧
       shackle_width 32 = box_size 32 / 2 ∧
       shackle_height 32 = box_size 32 / 2 ∧
       keyhole_radius 32 = 32 / 12 ∧
       shadow_padding 32 - padding 32 = 32 / 40) :=
  ⟨by decide, geometry_params 32 (by decide)⟩

/-- C9: the inline per-frame drawing of `create_ico_file` re-implements the
renderer exactly — for every size the ICO frame equals the standalone
render of that size. -/
theorem ico_frame_eq_create_icon (s : Nat) : ico_frame s = create_icon s := rfl

/-- C10: `create_ico_file` requires a non-empty size list: on the empty list
the `icons[0]` subscript is out of bounds and nothing is written (modelled
as `none`), while for every non-empty list of positive sizes the indexing
is in bounds and the save is reached (`isSome`). -/
theorem ico_file_nonempty_sizes :
    create_ico_file [] = none ∧
    ∀ sizes : List Nat, (∀ x ∈ sizes, 0 < x) → sizes ≠ [] →
      (create_ico_file sizes).isSome := by
  refine ⟨rfl, fun sizes _ h => ?_⟩
  cases sizes with
  | nil => exact absurd rfl h
  | cons a l => simp [create_ico_file]

/-- C10, witness: the sizes list [16] is accepted. -/
theorem ico_file_nonempty_sizes_witness : (create_ico_file [16]).isSome = true :=
  ico_file_nonempty_sizes.2 [16] (by decide) (by decide)
